import Mathlib

/-!
Verification of the generation-orchestration layer of the Journey-Creation
backend (`src/hf_backend/main.py`, `src/hf_backend/prompt_loader.py`).

The Python source is shallowly embedded: pure helpers become Lean functions,
the job tracker becomes explicit state passing, the LLM adapters become
outcome oracles (each adapter call is modelled by its observable outcome,
an `Except` of the error message or the returned text), and the fallback
orchestrator / validation-retry controller are translated control-flow by
control-flow from the Python.
-/

namespace JourneyCreation

/-! ## Python string primitives -/

/-- Prefix test on character lists (`needle` begins `hay`). -/
def listIsPre : List Char → List Char → Bool
  | [], _ => true
  | _ :: _, [] => false
  | a :: as, b :: bs => a == b && listIsPre as bs

/-- Substring test on character lists: does `needle` occur contiguously in `hay`? -/
def listSub (needle : List Char) : List Char → Bool
  | [] => listIsPre needle []
  | c :: cs => listIsPre needle (c :: cs) || listSub needle cs

/-- Embedding of the Python `needle in hay` membership test for strings. -/
def strContains (hay needle : String) : Bool :=
  listSub needle.toList hay.toList

/-- Embedding of the Python `str.split()` (no separator): split on whitespace runs, dropping
empty fragments.  Auxiliary worker carries the current (reversed) word. -/
def splitWsAux : List Char → List Char → List String
  | [], [] => []
  | [], acc => [String.mk acc.reverse]
  | c :: cs, acc =>
    if c.isWhitespace then
      if acc.isEmpty then splitWsAux cs [] else String.mk acc.reverse :: splitWsAux cs []
    else splitWsAux cs (c :: acc)

/-- Embedding of the Python `text.split()`. -/
def pySplit (s : String) : List String := splitWsAux s.toList []

/-- Embedding of the Python `str.lower()` (character-wise ASCII lowering). -/
def pyLower (s : String) : String := String.mk (s.toList.map Char.toLower)

/-- Embedding of the Python `str.strip()`: drop whitespace from both ends. -/
def pyStrip (s : String) : String :=
  String.mk (((s.toList.dropWhile Char.isWhitespace).reverse.dropWhile
    Char.isWhitespace).reverse)

/-- Embedding of the Python `s[:n]` slice. -/
def pyTake (s : String) (n : Nat) : String := String.mk (s.toList.take n)

/-- Worker for the Python `str.split(",")`: split on every comma, keeping
empty fragments. -/
def splitCommaAux : List Char → List Char → List String
  | [], acc => [String.mk acc.reverse]
  | c :: cs, acc =>
    if c = ',' then String.mk acc.reverse :: splitCommaAux cs []
    else splitCommaAux cs (c :: acc)

/-- Embedding of the Python `model_str.split(",")`. -/
def pySplitComma (s : String) : List String := splitCommaAux s.toList []

/-- Embedding of the Python `sep.join(items)`. -/
def joinSep (sep : String) : List String → String
  | [] => ""
  | [x] => x
  | x :: y :: xs => x ++ sep ++ joinSep sep (y :: xs)

/-! ## Script data model

`validate_script` receives a parsed JSON object with a `sections` list; each
section is read through `section.get("text", "")` and `section.get("speaker")`.
A section is embedded as its `text` (absent key behaves as `""`) and its
optional `speaker` value (`none` models an absent key; Python truthiness of a
string value is `≠ ""`). -/

structure ScriptSection where
  text : String
  speaker : Option String
deriving Repr, DecidableEq

/-- Python truthiness of `section.get("speaker")`. -/
def speakerTruthy : Option String → Bool
  | none => false
  | some s => s ≠ ""

structure Script where
  sections : List ScriptSection
deriving Repr, DecidableEq

/-! ## validate_script (main.py lines 1040-1108)

The Python function appends error strings in a fixed order: word count,
concept coverage, section-structure, speaker dialogue, reading level; with an
early return when the `sections` field is missing/empty.  Each check is
embedded as its own list of produced errors, concatenated in source order. -/

/-- Total word count: `sum(len(text.split()))` over the sections. -/
def totalWords (s : Script) : Nat :=
  (s.sections.map (fun sec => (pySplit sec.text).length)).sum

/-- Word-count check (main.py lines 1066-1074).  Percentages follow the Python
`int((shortage / min_words) * 100)`: truncating division of the exact ratio,
which `Nat` division reproduces. -/
def wordCountErrors (total min_words max_words : Nat) : List String :=
  if total < min_words then
    let shortage := min_words - total
    let shortage_pct := shortage * 100 / min_words
    ["Script too short: " ++ toString total ++ " words (need " ++ toString min_words ++
      "-" ++ toString max_words ++ "). SHORT BY " ++ toString shortage ++ " words (" ++
      toString shortage_pct ++ "%). MUST write more content to meet target duration."]
  else if total > max_words then
    let excess := total - max_words
    let excess_pct := excess * 100 / max_words
    ["Script too long: " ++ toString total ++ " words (need " ++ toString min_words ++
      "-" ++ toString max_words ++ "). EXCEEDED BY " ++ toString excess ++ " words (" ++
      toString excess_pct ++ "%). MUST reduce content."]
  else []

/-- The joined body `" ".join(texts).lower()` over the section texts (main.py line 1077). -/
def scriptTextLower (s : Script) : String :=
  pyLower (joinSep " " (s.sections.map (·.text)))

/-- Concepts whose lowercased display name is not a substring of the
lowercased joined body (main.py lines 1078-1082), in input order. -/
def uncoveredConcepts (s : Script) (concept_names : List String) : List String :=
  concept_names.filter (fun n => ! strContains (scriptTextLower s) (pyLower n))

/-- Concept-coverage check (main.py lines 1076-1085). -/
def coverageErrors (s : Script) (concept_names : List String) : List String :=
  let uncovered := uncoveredConcepts s concept_names
  if uncovered.isEmpty then []
  else ["Concepts not covered in script: " ++ joinSep ", " uncovered ++
        ". MUST include explanations for ALL concepts."]

/-- Section-structure check (main.py lines 1087-1089). -/
def sectionCountErrors (s : Script) : List String :=
  if s.sections.length < 3 then
    ["Script has only " ++ toString s.sections.length ++
     " sections. Educational scripts should have at least 3 sections (introduction, main content, conclusion)."]
  else []

/-- Speaker-dialogue check (main.py lines 1091-1094). -/
def speakerErrors (s : Script) : List String :=
  if s.sections.any (fun sec => speakerTruthy sec.speaker) then []
  else ["Script has no speaker assignments. Educational scripts should be dialogues between speakers."]

/-- Grade parsed from the grade band (main.py line 1097):
`int(grade_band.split('-')[0]) if '-' in grade_band else int(grade_band or 7)`. -/
def parseGrade (grade_band : String) : Nat :=
  if strContains grade_band "-" then
    (((grade_band.splitOn "-").headD "").toNat?).getD 0
  else if grade_band = "" then 7
  else (grade_band.toNat?).getD 0

/-- Total letters over all split words (numerator of `avg_word_length`). -/
def totalLetters (s : Script) : Nat :=
  (s.sections.map (fun sec => ((pySplit sec.text).map String.length).sum)).sum

/-- Format `n/d` to one decimal place, rounding half away from zero, as the
Python one-decimal float formatting does for these small exact quotients. -/
def fmtTenths (n d : Nat) : String :=
  let t := (n * 20 / d + 1) / 2
  toString (t / 10) ++ "." ++ toString (t % 10)

/-- Reading-level heuristic (main.py lines 1096-1104).  The Python comparison
`avg_word_length > k` on the float quotient `letters / max(total,1)` is
embedded as the exact rational comparison `letters > k * max(total,1)`. -/
def gradeErrors (s : Script) (grade_band : String) : List String :=
  let grade := parseGrade grade_band
  let total := totalWords s
  let letters := totalLetters s
  let den := max total 1
  if grade ≤ 5 && decide (letters > 6 * den) then
    ["Language may be too complex for grade " ++ toString grade ++
     ". Average word length: " ++ fmtTenths letters den ++ " letters (should be < 6 for elementary)."]
  else if grade ≤ 8 && decide (letters > 7 * den) then
    ["Language may be too complex for grade " ++ toString grade ++
     ". Average word length: " ++ fmtTenths letters den ++ " letters (should be < 7 for middle school)."]
  else []

/-- Embedding of `validate_script` (main.py lines 1040-1108): returns
`(is_valid, errors)` with `is_valid = (errors == [])`; missing/empty
`sections` short-circuits with a single error. -/
def validate_script (script_data : Script) (min_words max_words : Nat)
    (concept_names : List String) (grade_band : String) : Bool × List String :=
  if script_data.sections.isEmpty then
    (false, ["Script missing 'sections' field"])
  else
    let errors :=
      wordCountErrors (totalWords script_data) min_words max_words ++
      coverageErrors script_data concept_names ++
      sectionCountErrors script_data ++
      speakerErrors script_data ++
      gradeErrors script_data grade_band
    (errors.isEmpty, errors)

/-! ## Job tracker (main.py lines 70-96)

`active_jobs` is a Python dict (insertion-ordered, keyed by job id) and
`job_history` a `deque(maxlen=100)`.  Both are embedded as lists;
`track_job` becomes a pure state transition. -/

structure JobInfo where
  id : String
  status : String
  timestamp : String
  metadata : List (String × String)
deriving Repr, DecidableEq

structure JobState where
  active_jobs : List (String × JobInfo)
  job_history : List JobInfo
deriving Repr, DecidableEq

/-- Embedding of the Python dict assignment `d[k] = v`: overwrite in place, else append. -/
def dictInsert (k : String) (v : JobInfo) (d : List (String × JobInfo)) :
    List (String × JobInfo) :=
  if d.any (fun p => p.1 = k) then d.map (fun p => if p.1 = k then (k, v) else p)
  else d ++ [(k, v)]

/-- Embedding of `deque.append` with `maxlen`: append on the right, evicting from the left
when over capacity. -/
def dequeAppend (maxlen : Nat) (dq : List JobInfo) (x : JobInfo) : List JobInfo :=
  let dq' := dq ++ [x]
  if maxlen < dq'.length then dq'.drop (dq'.length - maxlen) else dq'

/-- Embedding of `track_job` (main.py lines 80-96).  Statuses `queued`/`processing` upsert
into the active table; `completed`/`failed` delete from the active table and
append to the history ring; any other status leaves both tables unchanged. -/
def track_job (st : JobState) (job_id status timestamp : String)
    (metadata : List (String × String)) : JobState :=
  let job_info : JobInfo := ⟨job_id, status, timestamp, metadata⟩
  if status = "queued" ∨ status = "processing" then
    { st with active_jobs := dictInsert job_id job_info st.active_jobs }
  else if status = "completed" ∨ status = "failed" then
    { active_jobs := st.active_jobs.filter (fun p => p.1 ≠ job_id),
      job_history := dequeAppend 100 st.job_history job_info }
  else st

/-! ## Response cache

`prompt_loader.py` only declares `PROMPT_VERSION = "v2.1"` "for cache
invalidation"; the cache itself is not part of the sources.  It is modelled
from the spec below. -/

/-- The constant `PROMPT_VERSION` (prompt_loader.py line 106). -/
def PROMPT_VERSION : String := "v2.1"

/-- Modelled from the spec: a cache entry stores the payload together with its
creation timestamp and the prompt-version used to produce it (spec §3
"CacheEntry", §6 "Cache persistence layout"); the get/put operations
themselves are absent from the sources. -/
structure CacheEntry where
  payload : String
  created_at : Nat
  version : String
deriving Repr, DecidableEq

/-- Modelled from the spec: the store maps keys to entries (one record per
cache key). -/
abbrev CacheStore := List (String × CacheEntry)

/-- Modelled from the spec: `put(key, payload, version)` persists the payload
with the current timestamp and version, overwriting any existing entry for
that key (spec §4.4). -/
def cachePut (st : CacheStore) (key payload version : String) (now : Nat) :
    CacheStore :=
  (key, ⟨payload, now, version⟩) ::
    List.filter (fun p => p.1 ≠ key) st

/-- Modelled from the spec: `get(key)` under a requested version returns the
stored payload if present, not expired (age ≤ TTL) and version-matched;
otherwise it returns absent (spec §4.4, §3 "CacheEntry" invariant). -/
def cacheGet (st : CacheStore) (key version : String) (now ttl : Nat) :
    Option String :=
  match (List.find? (fun p => p.1 = key) st) with
  | none => none
  | some (_, e) =>
    if ttl < now - e.created_at then none
    else if e.version ≠ version then none
    else some e.payload

/-! ## Provider adapters and the fallback orchestrator
(main.py lines 205-382)

Each outbound adapter call is modelled by its observable outcome: an
`Except String String` carrying either the message of the raised error or the
returned text.  An `Oracle` fixes, per OpenAI model, the outcome of the
`chat.completions` call and of the `responses` call, and the outcome of the
single Gemini model. -/

inductive Provider where
  | openai
  | gemini
deriving Repr, DecidableEq

structure Candidate where
  provider : Provider
  model : String
deriving Repr, DecidableEq

structure Oracle where
  chat : String → Except String String
  responses : String → Except String String
  gemini : Except String String

/-- Embedding of `parse_openai_model_list` (main.py lines 205-210) applied to the
`OPENAI_MODEL` value. -/
def parse_openai_model_list (model_str : String) : List String :=
  let models := ((pySplitComma model_str).map pyStrip).filter (fun m => m ≠ "")
  if models.isEmpty then ["gpt-4o"] else models

/-- The test `"gpt-5.1" in model_name.lower() or "gpt-5" in model_name.lower()`
(main.py line 237). -/
def isGpt51 (model_name : String) : Bool :=
  strContains (pyLower model_name) "gpt-5.1" || strContains (pyLower model_name) "gpt-5"

/-- The test `"429" in error_str or "rate limit" in error_str.lower()`
(main.py line 264). -/
def isRateLimit (error_str : String) : Bool :=
  strContains error_str "429" || strContains (pyLower error_str) "rate limit"

/-- Embedding of `try_provider` for the OpenAI arm (main.py lines 230-292): try
`chat.completions`; on a rate-limited error re-raise at once; otherwise (for
non-gpt-5.1 models) fall back to the `responses` endpoint, re-raising the
original chat error if that also fails.  The second component records whether
the `responses` endpoint was invoked. -/
def try_provider_openai (oc : Oracle) (model_name : String) :
    Except String String × Bool :=
  match oc.chat model_name with
  | .ok content => (.ok content, false)
  | .error chat_err =>
    if isRateLimit chat_err then (.error chat_err, false)
    else if isGpt51 model_name then (.error chat_err, false)
    else
      match oc.responses model_name with
      | .ok text => (.ok text, true)
      | .error _ => (.error chat_err, true)

/-- Gemini candidate attempted by the orchestrator (main.py lines 159, 305). -/
def geminiCandidate : Candidate := ⟨.gemini, "gemini-2.0-flash-001"⟩

def openaiCandidate (m : String) : Candidate := ⟨.openai, m⟩

/-- Error summary recorded for a failed OpenAI model
(main.py line 325: `f"OpenAI ({model_name}): {str(e)[:150]}"`). -/
def openaiErrorSummary (model_name err : String) : String :=
  "OpenAI (" ++ model_name ++ "): " ++ pyTake err 150

/-- The `for model_name in openai_models` loop of the OpenAI-primary branch
(main.py lines 319-327): first success returns its text; otherwise the
formatted error summaries accumulate in attempt order.  The trace records the
candidates invoked, in order. -/
def openaiLoop (oc : Oracle) :
    List String → (Except (List String) String) × List Candidate
  | [] => (.error [], [])
  | m :: ms =>
    match try_provider_openai oc m with
    | (.ok t, _) => (.ok t, [openaiCandidate m])
    | (.error e, _) =>
      match openaiLoop oc ms with
      | (.ok t, tr) => (.ok t, openaiCandidate m :: tr)
      | (.error errs, tr) =>
        (.error (openaiErrorSummary m e :: errs), openaiCandidate m :: tr)

/-- The `for model_name in openai_models` fallback loop of the Gemini-primary
branch (main.py lines 358-365): failures are logged but not accumulated into
the terminal message. -/
def fallbackOpenaiLoop (oc : Oracle) :
    List String → Option String × List Candidate
  | [] => (none, [])
  | m :: ms =>
    match try_provider_openai oc m with
    | (.ok t, _) => (some t, [openaiCandidate m])
    | (.error _, _) =>
      match fallbackOpenaiLoop oc ms with
      | (r, tr) => (r, openaiCandidate m :: tr)

/-- Provider policy in force for one request: `use_provider` (the override or
`CURRENT_PROVIDER`), the parsed OpenAI model list, and `FALLBACK_PROVIDER`. -/
structure Config where
  useProvider : Provider
  openaiModels : List String
  fallbackProvider : Option Provider
deriving Repr, DecidableEq

/-- Embedding of `generate_with_llm` (main.py lines 212-382), returning the outcome (text
or the raised `HTTPException` detail) together with the ordered trace of
candidates actually invoked.

OpenAI-primary branch (lines 316-344): each OpenAI model in order, then a
single Gemini attempt when `FALLBACK_PROVIDER == "gemini"`, then
`"All providers failed. Tried: ..."` joining every summary with `" | "`.

Gemini-primary branch (lines 346-368): one Gemini attempt, then each OpenAI
model when `FALLBACK_PROVIDER == "openai"`, then a terminal
`GEMINI failed: ...` message carrying only the primary error (the aggregate
"Both providers failed" message at lines 369-382 sits after the `raise` and
is unreachable). -/
def generate_with_llm (cfg : Config) (oc : Oracle) :
    Except String String × List Candidate :=
  match cfg.useProvider with
  | .openai =>
    match openaiLoop oc cfg.openaiModels with
    | (.ok t, tr) => (.ok t, tr)
    | (.error errs, tr) =>
      if cfg.fallbackProvider = some .gemini then
        match oc.gemini with
        | .ok t => (.ok t, tr ++ [geminiCandidate])
        | .error gemini_error =>
          (.error ("All providers failed. Tried: " ++
              joinSep " | " (errs ++ ["Gemini: " ++ pyTake gemini_error 150])),
            tr ++ [geminiCandidate])
      else
        (.error ("All providers failed. Tried: " ++ joinSep " | " errs), tr)
  | .gemini =>
    match oc.gemini with
    | .ok t => (.ok t, [geminiCandidate])
    | .error e =>
      if cfg.fallbackProvider = some .openai then
        match fallbackOpenaiLoop oc cfg.openaiModels with
        | (some t, tr) => (.ok t, geminiCandidate :: tr)
        | (none, tr) =>
          (.error ("GEMINI failed: " ++ e), geminiCandidate :: tr)
      else
        (.error ("GEMINI failed: " ++ e), [geminiCandidate])

/-- The ordered candidate list induced by a provider policy: all OpenAI
models before the single-shot Gemini fallback, or Gemini before the OpenAI
fallback models. -/
def candidateList (cfg : Config) : List Candidate :=
  match cfg.useProvider with
  | .openai =>
    cfg.openaiModels.map openaiCandidate ++
      (if cfg.fallbackProvider = some .gemini then [geminiCandidate] else [])
  | .gemini =>
    geminiCandidate ::
      (if cfg.fallbackProvider = some .openai then
        cfg.openaiModels.map openaiCandidate else [])

/-- Outcome of attempting one candidate (the whole `try_provider` call). -/
def candOutcome (oc : Oracle) (c : Candidate) : Except String String :=
  match c.provider with
  | .openai => (try_provider_openai oc c.model).1
  | .gemini => oc.gemini

/-- Whether an attempt outcome is a success. -/
def exOk : Except String String → Bool
  | .ok _ => true
  | .error _ => false

/-! ## Validation-retry controller (main.py lines 1176-1228)

The script-generation retry loop of `generate_script`.  The LLM round trip
(`generate_with_llm` followed by `json.loads`) is abstracted as a function
`gen` from the attempt prompt to the parsed script.  In the Python source the
feedback separators are written `"\\n"`: a literal backslash followed by `n`,
reproduced here verbatim. -/

/-- Feedback block appended before a retry (main.py lines 1185-1186). -/
def feedbackBlock (validation_errors : List String) : String :=
  "\\n\\nPREVIOUS ATTEMPT FAILED WITH THESE ISSUES:\\n" ++
    joinSep "\\n" validation_errors ++
    "\\n\\nPLEASE FIX THESE ISSUES IN THIS ATTEMPT."

/-- Result record of the retry loop of `generate_script`: the returned
`{"script": ..., "validation": {...}}` payload. -/
structure GenScriptResult where
  script : Script
  passed : Bool
  errors : List String
  attempts : Nat
  warning : Option String
deriving Repr, DecidableEq

/-- One iteration step of the `for attempt in range(1, max_attempts + 1)`
loop (main.py lines 1179-1228).  `fuel` counts the remaining iterations
including the current one (`fuel = max_attempts - attempt + 1`), so
`fuel = 0` after the failed last attempt means "no attempts remain".  Also
returns the ordered list of prompts actually sent to the generator. -/
def scriptAttemptLoop (gen : String → Script) (validate : Script → Bool × List String)
    (prompt : String) : Nat → Nat → List String → GenScriptResult × List String
  | 0, _, _ => (⟨⟨[]⟩, false, [], 0, none⟩, [])
  | fuel + 1, attempt, validation_errors =>
    let attempt_prompt :=
      if 1 < attempt ∧ validation_errors ≠ [] then prompt ++ feedbackBlock validation_errors
      else prompt
    let result := gen attempt_prompt
    let (is_valid, errors) := validate result
    if is_valid then
      (⟨result, true, [], attempt, none⟩, [attempt_prompt])
    else if fuel = 0 then
      (⟨result, false, errors, attempt,
        some "Script generated but did not pass all validation checks"⟩, [attempt_prompt])
    else
      match scriptAttemptLoop gen validate prompt fuel (attempt + 1) errors with
      | (res, calls) => (res, attempt_prompt :: calls)

/-- The retry loop of `generate_script` (main.py lines 1176-1228):
`max_attempts = 2`, starting at attempt 1 with no accumulated
validation errors, validating with `validate_script`. -/
def generate_script_run (gen : String → Script) (prompt : String)
    (min_words max_words : Nat) (concept_names : List String) (grade : String) :
    GenScriptResult × List String :=
  scriptAttemptLoop gen
    (fun s => validate_script s min_words max_words concept_names grade)
    prompt 2 1 []

/-! ## Lemmas about the string primitives -/

theorem listIsPre_append (n post : List Char) : listIsPre n (n ++ post) = true := by
  induction n with
  | nil => rfl
  | cons a as ih => simp [listIsPre, ih]

theorem listSub_split (n pre post : List Char) : listSub n (pre ++ n ++ post) = true := by
  induction pre with
  | nil =>
    cases n with
    | nil => cases post <;> simp [listSub, listIsPre]
    | cons c cs =>
      simp only [List.nil_append, listSub, Bool.or_eq_true]
      exact Or.inl (listIsPre_append (c :: cs) post)
  | cons c cs ih =>
    simp only [List.cons_append, listSub, Bool.or_eq_true]
    exact Or.inr (by simpa [List.append_assoc] using ih)

theorem strContains_split (a x b : String) : strContains (a ++ x ++ b) x = true := by
  have h : (a ++ x ++ b).toList = a.toList ++ x.toList ++ b.toList := by
    simp [String.toList, String.data_append]
  rw [strContains, h]
  exact listSub_split x.toList a.toList b.toList

theorem joinSep_cons (sep y : String) (l : List String) :
    ∃ r, joinSep sep (y :: l) = y ++ r := by
  cases l with
  | nil => exact ⟨"", by simp [joinSep]⟩
  | cons z zs =>
    exact ⟨sep ++ joinSep sep (z :: zs), by simp [joinSep, String.append_assoc]⟩

theorem joinSep_mem_split (sep x : String) (l : List String) (h : x ∈ l) :
    ∃ a b, joinSep sep l = a ++ x ++ b := by
  induction l with
  | nil => cases h
  | cons y ys ih =>
    rcases List.mem_cons.mp h with h1 | h2
    · subst h1
      obtain ⟨r, hr⟩ := joinSep_cons sep x ys
      exact ⟨"", r, by rw [hr]; simp [String.empty_append]⟩
    · obtain ⟨a, b, hab⟩ := ih h2
      cases ys with
      | nil => cases h2
      | cons z zs =>
        refine ⟨y ++ sep ++ a, b, ?_⟩
        simp [joinSep, hab, String.append_assoc]

theorem strContains_pre_join_post (pre sep post x : String) (l : List String)
    (h : x ∈ l) : strContains (pre ++ joinSep sep l ++ post) x = true := by
  obtain ⟨a, b, hab⟩ := joinSep_mem_split sep x l h
  rw [hab]
  have hre : pre ++ (a ++ x ++ b) ++ post = (pre ++ a) ++ x ++ (b ++ post) := by
    simp [String.append_assoc]
  rw [hre]
  exact strContains_split _ _ _

theorem strContains_pre_join (pre sep x : String) (l : List String) (h : x ∈ l) :
    strContains (pre ++ joinSep sep l) x = true := by
  obtain ⟨a, b, hab⟩ := joinSep_mem_split sep x l h
  rw [hab]
  have hre : pre ++ (a ++ x ++ b) = (pre ++ a) ++ x ++ b := by
    simp [String.append_assoc]
  rw [hre]
  exact strContains_split _ _ _

/-! ## Structural facts about validate_script -/

theorem validate_script_fst (s : Script) (mw Mw : Nat) (cns : List String)
    (g : String) :
    (validate_script s mw Mw cns g).1 = (validate_script s mw Mw cns g).2.isEmpty := by
  unfold validate_script
  split <;> rfl

theorem validate_script_snd (s : Script) (mw Mw : Nat) (cns : List String)
    (g : String) (hs : s.sections.isEmpty = false) :
    (validate_script s mw Mw cns g).2 =
      wordCountErrors (totalWords s) mw Mw ++ coverageErrors s cns ++
      sectionCountErrors s ++ speakerErrors s ++ gradeErrors s g := by
  simp [validate_script, hs]

/-! ## C8: word-count validator -/

/-- A 20-word dialogue section; uniform bodies below are built from copies of
it, so a body of `k` sections totals `20 * k` words. -/
def wordSection20 : ScriptSection := ⟨joinSep " " (List.replicate 20 "word"), none⟩

def uniformBody (k : Nat) : Script := ⟨List.replicate k wordSection20⟩

set_option maxRecDepth 20000

/-- C8: a 320-word body against bounds [450, 1100] yields a word-count
violation reporting the shortage as 130 words and 28% of the minimum bound; a
900-word body passes the word-count check; a 1300-word body fails with an
excess message carrying the absolute excess (200 words) and its percentage of
the maximum bound (18%). -/
theorem c8_word_count_validator :
    (totalWords (uniformBody 16) = 320 ∧
      (validate_script (uniformBody 16) 450 1100 [] "7").1 = false ∧
      "Script too short: 320 words (need 450-1100). SHORT BY 130 words (28%). MUST write more content to meet target duration."
        ∈ (validate_script (uniformBody 16) 450 1100 [] "7").2) ∧
    (totalWords (uniformBody 45) = 900 ∧
      wordCountErrors (totalWords (uniformBody 45)) 450 1100 = []) ∧
    (totalWords (uniformBody 65) = 1300 ∧
      (validate_script (uniformBody 65) 450 1100 [] "7").1 = false ∧
      "Script too long: 1300 words (need 450-1100). EXCEEDED BY 200 words (18%). MUST reduce content."
        ∈ (validate_script (uniformBody 65) 450 1100 [] "7").2) := by
  refine ⟨⟨?_, ?_, ?_⟩, ⟨?_, ?_⟩, ?_, ?_, ?_⟩ <;> decide

/-! ## C2: job tracker terminal transitions -/

/-- C2: evidence that the claim fails on the code for the
`completed_with_warnings` terminal status used by `generate_script`
(main.py line 1215): `track_job` matches only `completed`/`failed`
(main.py line 91), so the job is neither removed from the active table nor
appended to the history ring — the whole state is left unchanged, with the
finished job still recorded as active. -/
theorem c2_completed_with_warnings_not_archived :
    track_job (track_job ⟨[], []⟩ "job1" "processing" "t0" [])
        "job1" "completed_with_warnings" "t1" [] =
      ⟨[("job1", ⟨"job1", "processing", "t0", []⟩)], []⟩ := by
  decide

/-! ## C3: response cache (spec-modelled) -/

/-- C3: put-then-get round trip — a `get` under the version just stored
returns the stored payload whenever the age of the entry is within the TTL —
and version invalidation — a `get` under any other requested version returns
absent. -/
theorem c3_cache_roundtrip (st : CacheStore) (k p v v' : String)
    (now now' ttl : Nat) (hage : now' - now ≤ ttl) :
    cacheGet (cachePut st k p v now) k v now' ttl = some p ∧
    (v' ≠ v → cacheGet (cachePut st k p v now) k v' now' ttl = none) := by
  have hfind : List.find? (fun q => q.1 = k) (cachePut st k p v now) =
      some (k, ⟨p, now, v⟩) := by
    simp [cachePut, List.find?]
  have hn : ¬ ttl < now' - now := by omega
  constructor
  · rw [cacheGet, hfind]
    simp [hn]
  · intro hv
    rw [cacheGet, hfind]
    simp [hn, Ne.symm hv]

/-- Closed instance of the C3 round-trip and version-invalidation laws. -/
theorem c3_cache_roundtrip_witness :
    cacheGet (cachePut [] "key" "payload" "v1" 0) "key" "v1" 1 2 = some "payload" ∧
    cacheGet (cachePut [] "key" "payload" "v1" 0) "key" "v2" 1 2 = none :=
  ⟨(c3_cache_roundtrip [] "key" "payload" "v1" "v2" 0 1 2 (by decide)).1,
   (c3_cache_roundtrip [] "key" "payload" "v1" "v2" 0 1 2 (by decide)).2 (by decide)⟩

/-! ## C9: concept coverage -/

/-- C9: the concept-coverage check is a case-insensitive substring match of
each required concept name against the joined body text: any concept whose
name is not found is listed by name inside the coverage violation carried by
the `validate_script` output, and when every name is found the coverage check
produces no violation. -/
theorem c9_concept_coverage (s : Script) (mw Mw : Nat) (cns : List String)
    (g n : String) (hs : s.sections.isEmpty = false) :
    (n ∈ cns → strContains (scriptTextLower s) (pyLower n) = false →
      ∃ msg, msg ∈ coverageErrors s cns ∧
        msg ∈ (validate_script s mw Mw cns g).2 ∧ strContains msg n = true) ∧
    ((∀ m ∈ cns, strContains (scriptTextLower s) (pyLower m) = true) →
      coverageErrors s cns = []) := by
  constructor
  · intro hmem hnot
    have hunc : n ∈ uncoveredConcepts s cns := by
      simp [uncoveredConcepts, List.mem_filter, hmem, hnot]
    have hne : (uncoveredConcepts s cns).isEmpty = false := by
      cases h2 : uncoveredConcepts s cns with
      | nil => rw [h2] at hunc; cases hunc
      | cons a l => rfl
    have hcov : coverageErrors s cns =
        ["Concepts not covered in script: " ++
          joinSep ", " (uncoveredConcepts s cns) ++
          ". MUST include explanations for ALL concepts."] := by
      simp only [coverageErrors, hne, Bool.false_eq_true, if_false]
    refine ⟨"Concepts not covered in script: " ++
      joinSep ", " (uncoveredConcepts s cns) ++
      ". MUST include explanations for ALL concepts.", by simp [hcov], ?_, ?_⟩
    · rw [validate_script_snd s mw Mw cns g hs]
      simp [hcov]
    · exact strContains_pre_join_post _ _ _ _ _ hunc
  · intro hall
    have hnil : uncoveredConcepts s cns = [] := by
      rw [uncoveredConcepts, List.filter_eq_nil_iff]
      intro a ha
      simp [hall a ha]
    simp [coverageErrors, hnil]

def c9Script : Script :=
  ⟨[⟨"Alpha beta", some "A"⟩, ⟨"gamma", none⟩, ⟨"delta", none⟩]⟩

/-- Closed instance of C9 at a script missing the required concept Omega. -/
theorem c9_concept_coverage_witness :
    ∃ msg, msg ∈ coverageErrors c9Script ["Omega"] ∧
      msg ∈ (validate_script c9Script 1 100 ["Omega"] "7").2 ∧
      strContains msg "Omega" = true :=
  (c9_concept_coverage c9Script 1 100 ["Omega"] "7" "Omega" (by decide)).1
    (by decide) (by decide)

/-! ## C10: speaker assignments are mandatory -/

/-- Helper: a script with at least one section but no truthy speaker field
fails validation with the no-speaker-assignments violation. -/
theorem speaker_violation (s : Script) (mw Mw : Nat) (cns : List String)
    (g : String) (hs : s.sections.isEmpty = false)
    (hall : ∀ sec ∈ s.sections, speakerTruthy sec.speaker = false) :
    (validate_script s mw Mw cns g).1 = false ∧
    "Script has no speaker assignments. Educational scripts should be dialogues between speakers."
      ∈ (validate_script s mw Mw cns g).2 := by
  have hany : s.sections.any (fun sec => speakerTruthy sec.speaker) = false := by
    rw [List.any_eq_false]
    intro sec hsec
    simp [hall sec hsec]
  have hspk : speakerErrors s =
      ["Script has no speaker assignments. Educational scripts should be dialogues between speakers."] := by
    simp [speakerErrors, hany]
  have hmem :
      "Script has no speaker assignments. Educational scripts should be dialogues between speakers."
        ∈ (validate_script s mw Mw cns g).2 := by
    rw [validate_script_snd s mw Mw cns g hs]
    simp [hspk]
  refine ⟨?_, hmem⟩
  rw [validate_script_fst]
  cases h2 : (validate_script s mw Mw cns g).2 with
  | nil => rw [h2] at hmem; cases hmem
  | cons a l => rfl

/-- C10: every script whose sections all lack a truthy speaker field — in
particular any output following the JSON schema requested by the episode
prompt, whose sections carry only id/start/end/type/text fields — is rejected
by `validate_script` with the no-speaker-assignments violation; consequently
validation can pass only when some section carries a truthy speaker. -/
theorem c10_speaker_required (s : Script) (mw Mw : Nat) (cns : List String)
    (g : String) :
    (s.sections.isEmpty = false →
      (∀ sec ∈ s.sections, speakerTruthy sec.speaker = false) →
      (validate_script s mw Mw cns g).1 = false ∧
      "Script has no speaker assignments. Educational scripts should be dialogues between speakers."
        ∈ (validate_script s mw Mw cns g).2) ∧
    ((validate_script s mw Mw cns g).1 = true →
      ∃ sec ∈ s.sections, speakerTruthy sec.speaker = true) := by
  refine ⟨fun hs hall => speaker_violation s mw Mw cns g hs hall, ?_⟩
  intro hv
  by_contra hno
  push_neg at hno
  have hall : ∀ sec ∈ s.sections, speakerTruthy sec.speaker = false := by
    intro sec hsec
    simpa using hno sec hsec
  cases hemp : s.sections.isEmpty with
  | true => simp [validate_script, hemp] at hv
  | false =>
    have hfalse := (speaker_violation s mw Mw cns g hemp hall).1
    rw [hv] at hfalse
    simp at hfalse

def c10Script : Script :=
  ⟨[⟨"Intro text", none⟩, ⟨"Main text", none⟩, ⟨"Outro text", none⟩]⟩

/-- Closed instance of C10 at a schema-conformant script (text-only sections,
no speaker keys). -/
theorem c10_speaker_required_witness :
    (validate_script c10Script 1 100 [] "7").1 = false ∧
    "Script has no speaker assignments. Educational scripts should be dialogues between speakers."
      ∈ (validate_script c10Script 1 100 [] "7").2 :=
  (c10_speaker_required c10Script 1 100 [] "7").1 (by decide) (by decide)

/-! ## C5 and C7: the validation-retry loop -/

theorem feedbackBlock_ne_empty (errs : List String) : feedbackBlock errs ≠ "" := by
  intro h
  have hlen : (feedbackBlock errs).length = 0 := by rw [h]; rfl
  rw [feedbackBlock, String.length_append, String.length_append] at hlen
  have h1 : 0 < ("\\n\\nPREVIOUS ATTEMPT FAILED WITH THESE ISSUES:\\n" : String).length := by
    decide
  omega

/-- C5: with a validator that fails on both attempts, `generate_script`
performs exactly `max_attempts = 2` generation calls and still returns the
script generated last, tagged `passed = false` with the validation errors of
the final attempt and a non-fatal warning — the artifact is not discarded. -/
theorem c5_retry_bound (gen : String → Script) (prompt : String) (mw Mw : Nat)
    (cns : List String) (g : String) (e1 e2 : List String)
    (h1 : validate_script (gen prompt) mw Mw cns g = (false, e1))
    (h2 : validate_script (gen (prompt ++ feedbackBlock e1)) mw Mw cns g = (false, e2)) :
    generate_script_run gen prompt mw Mw cns g =
      (⟨gen (prompt ++ feedbackBlock e1), false, e2, 2,
        some "Script generated but did not pass all validation checks"⟩,
       [prompt, prompt ++ feedbackBlock e1]) := by
  have hfst := validate_script_fst (gen prompt) mw Mw cns g
  rw [h1] at hfst
  have he1 : e1 ≠ [] := by
    cases e1 with
    | nil => simp at hfst
    | cons a l => simp
  simp [generate_script_run, scriptAttemptLoop, h1, h2, he1]

/-- Closed instance of C5: a generator that always returns a sectionless
script fails validation on both attempts. -/
theorem c5_retry_bound_witness :
    generate_script_run (fun _ => ⟨[]⟩) "PROMPT" 450 1100 [] "7" =
      (⟨⟨[]⟩, false, ["Script missing 'sections' field"], 2,
        some "Script generated but did not pass all validation checks"⟩,
       ["PROMPT", "PROMPT" ++ feedbackBlock ["Script missing 'sections' field"]]) :=
  c5_retry_bound (fun _ => ⟨[]⟩) "PROMPT" 450 1100 [] "7"
    ["Script missing 'sections' field"] ["Script missing 'sections' field"]
    (by decide) (by decide)

/-- C7: the first generation attempt is issued with the unmodified base
prompt, and whenever a second attempt happens its prompt is exactly the
original prompt followed by a non-empty feedback block derived from the
violations reported on attempt 1. -/
theorem c7_feedback_prompts (gen : String → Script) (prompt : String)
    (mw Mw : Nat) (cns : List String) (g : String) :
    (generate_script_run gen prompt mw Mw cns g).2 = [prompt] ∨
    (∃ e1, validate_script (gen prompt) mw Mw cns g = (false, e1) ∧ e1 ≠ [] ∧
      feedbackBlock e1 ≠ "" ∧
      (generate_script_run gen prompt mw Mw cns g).2 =
        [prompt, prompt ++ feedbackBlock e1]) := by
  cases hval : validate_script (gen prompt) mw Mw cns g with
  | mk b errs =>
    cases b with
    | true =>
      left
      simp [generate_script_run, scriptAttemptLoop, hval]
    | false =>
      right
      have hfst := validate_script_fst (gen prompt) mw Mw cns g
      rw [hval] at hfst
      have he1 : errs ≠ [] := by
        cases errs with
        | nil => simp at hfst
        | cons a l => simp
      refine ⟨errs, rfl, he1, feedbackBlock_ne_empty errs, ?_⟩
      cases hval2 : validate_script (gen (prompt ++ feedbackBlock errs)) mw Mw cns g with
      | mk b2 errs2 =>
        cases b2 <;>
          simp [generate_script_run, scriptAttemptLoop, hval, hval2, he1]

/-- Closed instance of C7 at a generator that always returns a sectionless
script. -/
theorem c7_feedback_prompts_witness :
    (generate_script_run (fun _ => ⟨[]⟩) "BASE" 450 1100 [] "7").2 = ["BASE"] ∨
    (∃ e1, validate_script ((fun _ => Script.mk []) "BASE") 450 1100 [] "7" = (false, e1) ∧
      e1 ≠ [] ∧ feedbackBlock e1 ≠ "" ∧
      (generate_script_run (fun _ => ⟨[]⟩) "BASE" 450 1100 [] "7").2 =
        ["BASE", "BASE" ++ feedbackBlock e1]) :=
  c7_feedback_prompts (fun _ => ⟨[]⟩) "BASE" 450 1100 [] "7"

/-! ## Lemmas about the fallback-orchestrator loops -/

theorem openaiLoop_first_success (oc : Oracle) (ms : List String)
    (pre : List Candidate) (c : Candidate) (post : List Candidate) (t : String)
    (hsplit : ms.map openaiCandidate = pre ++ c :: post)
    (hpre : ∀ c' ∈ pre, exOk (candOutcome oc c') = false)
    (hc : candOutcome oc c = .ok t) :
    openaiLoop oc ms = (.ok t, pre ++ [c]) := by
  induction ms generalizing pre c post with
  | nil => simp at hsplit
  | cons m ms ih =>
    cases pre with
    | nil =>
      simp only [List.map_cons, List.nil_append] at hsplit
      injection hsplit with h1 h2
      subst h1
      cases htry : try_provider_openai oc m with
      | mk r flag =>
        have hr : r = .ok t := by
          simpa [candOutcome, openaiCandidate, htry] using hc
        subst hr
        simp [openaiLoop, htry]
    | cons p pre' =>
      simp only [List.map_cons] at hsplit
      injection hsplit with h1 h2
      have hm := hpre p (by simp)
      rw [← h1] at hm
      cases htry : try_provider_openai oc m with
      | mk r flag =>
        have hre : exOk r = false := by
          simpa [candOutcome, openaiCandidate, htry] using hm
        cases r with
        | ok tt => simp [exOk] at hre
        | error e =>
          have hrec := ih pre' c post h2 (fun c' hc' => hpre c' (by simp [hc'])) hc
          simp [openaiLoop, htry, hrec, h1]

theorem openaiLoop_all_fail (oc : Oracle) (ms : List String)
    (hf : ∀ m ∈ ms, exOk (try_provider_openai oc m).1 = false) :
    ∃ errs, openaiLoop oc ms = (.error errs, ms.map openaiCandidate) := by
  induction ms with
  | nil => exact ⟨[], by simp [openaiLoop]⟩
  | cons m ms ih =>
    obtain ⟨errs, hrec⟩ := ih (fun m' hm' => hf m' (by simp [hm']))
    have hm := hf m (by simp)
    cases htry : try_provider_openai oc m with
    | mk r flag =>
      rw [htry] at hm
      cases r with
      | ok tt => simp [exOk] at hm
      | error e =>
        exact ⟨openaiErrorSummary m e :: errs, by simp [openaiLoop, htry, hrec]⟩

theorem fallbackOpenaiLoop_first_success (oc : Oracle) (ms : List String)
    (pre : List Candidate) (c : Candidate) (post : List Candidate) (t : String)
    (hsplit : ms.map openaiCandidate = pre ++ c :: post)
    (hpre : ∀ c' ∈ pre, exOk (candOutcome oc c') = false)
    (hc : candOutcome oc c = .ok t) :
    fallbackOpenaiLoop oc ms = (some t, pre ++ [c]) := by
  induction ms generalizing pre c post with
  | nil => simp at hsplit
  | cons m ms ih =>
    cases pre with
    | nil =>
      simp only [List.map_cons, List.nil_append] at hsplit
      injection hsplit with h1 h2
      subst h1
      cases htry : try_provider_openai oc m with
      | mk r flag =>
        have hr : r = .ok t := by
          simpa [candOutcome, openaiCandidate, htry] using hc
        subst hr
        simp [fallbackOpenaiLoop, htry]
    | cons p pre' =>
      simp only [List.map_cons] at hsplit
      injection hsplit with h1 h2
      have hm := hpre p (by simp)
      rw [← h1] at hm
      cases htry : try_provider_openai oc m with
      | mk r flag =>
        have hre : exOk r = false := by
          simpa [candOutcome, openaiCandidate, htry] using hm
        cases r with
        | ok tt => simp [exOk] at hre
        | error e =>
          have hrec := ih pre' c post h2 (fun c' hc' => hpre c' (by simp [hc'])) hc
          simp [fallbackOpenaiLoop, htry, hrec, h1]

/-! ## C1: first-success-wins ordering -/

/-- C1: for any provider policy, if the candidates strictly before `c` in the
induced ordered candidate list all fail and `c` succeeds with raw text `t`,
then the orchestrator returns `t` and its invocation trace is exactly the
failing prefix followed by `c` — candidates after the first success are never
invoked, so at most one attempt succeeds. -/
theorem c1_first_success_wins (cfg : Config) (oc : Oracle)
    (pre : List Candidate) (c : Candidate) (post : List Candidate) (t : String)
    (hsplit : candidateList cfg = pre ++ c :: post)
    (hpre : ∀ c' ∈ pre, exOk (candOutcome oc c') = false)
    (hc : candOutcome oc c = .ok t) :
    generate_with_llm cfg oc = (.ok t, pre ++ [c]) := by
  obtain ⟨up, models, fb⟩ := cfg
  cases up with
  | openai =>
    simp only [candidateList] at hsplit
    by_cases hfb : fb = some Provider.gemini
    · rw [if_pos hfb] at hsplit
      have hgem : ∀ h : pre = models.map openaiCandidate,
          c = geminiCandidate → post = [] →
          generate_with_llm ⟨.openai, models, fb⟩ oc = (.ok t, pre ++ [c]) := by
        intro hp hcg hpost
        subst hp; subst hcg; subst hpost
        obtain ⟨errs, hloop⟩ := openaiLoop_all_fail oc models (by
          intro m' hm'
          have := hpre (openaiCandidate m') (List.mem_map_of_mem _ hm')
          simpa [candOutcome, openaiCandidate] using this)
        have hg : oc.gemini = .ok t := by
          simpa [candOutcome, geminiCandidate] using hc
        simp [generate_with_llm, hloop, hfb, hg]
      rcases List.append_eq_append_iff.mp hsplit with ⟨a', ha1, ha2⟩ | ⟨c', hc1, hc2⟩
      · cases a' with
        | nil =>
          simp only [List.append_nil] at ha1
          injection ha2 with hg1 hg2
          exact hgem ha1 hg1.symm hg2.symm
        | cons x xs =>
          injection ha2 with hg1 hg2
          exact absurd hg2.symm (by simp)
      · cases c' with
        | nil =>
          simp only [List.append_nil] at hc1
          injection hc2 with hg1 hg2
          exact hgem hc1.symm hg1 (by simpa using hg2)
        | cons x xs =>
          injection hc2 with hg1 hg2
          subst hg1
          have hloop := openaiLoop_first_success oc models pre c xs t hc1 hpre hc
          simp [generate_with_llm, hloop]
    · rw [if_neg hfb, List.append_nil] at hsplit
      have hloop := openaiLoop_first_success oc models pre c post t hsplit hpre hc
      simp [generate_with_llm, hloop]
  | gemini =>
    simp only [candidateList] at hsplit
    cases pre with
    | nil =>
      simp only [List.nil_append] at hsplit
      injection hsplit with h1 h2
      subst h1
      have hg : oc.gemini = .ok t := by
        simpa [candOutcome, geminiCandidate] using hc
      simp [generate_with_llm, hg]
    | cons p pre' =>
      injection hsplit with h1 h2
      have hm := hpre p (by simp)
      rw [← h1] at hm
      have hgf : exOk oc.gemini = false := by
        simpa [candOutcome, geminiCandidate] using hm
      cases hg : oc.gemini with
      | ok tt => rw [hg] at hgf; simp [exOk] at hgf
      | error e =>
        by_cases hfb : fb = some Provider.openai
        · rw [if_pos hfb] at h2
          have hloop := fallbackOpenaiLoop_first_success oc models pre' c post t h2
            (fun c' hc' => hpre c' (by simp [hc'])) hc
          simp [generate_with_llm, hg, hfb, hloop, h1]
        · rw [if_neg hfb] at h2
          exact absurd h2.symm (by simp)

def c1Oracle : Oracle :=
  ⟨fun m => if m = "gpt-4o" then .ok "TEXT" else .error "boom on gpt-5",
   fun _ => .error "responses boom", .error "gemini boom"⟩

def c1Config : Config :=
  ⟨.openai, parse_openai_model_list "gpt-5,gpt-4o", some .gemini⟩

/-- Closed instance of C1: with the parsed fallback list gpt-5,gpt-4o and a
Gemini fallback configured, gpt-5 fails, gpt-4o succeeds, and neither Gemini
nor anything after the success is invoked. -/
theorem c1_first_success_wins_witness :
    generate_with_llm c1Config c1Oracle =
      (.ok "TEXT", [openaiCandidate "gpt-5", openaiCandidate "gpt-4o"]) :=
  c1_first_success_wins c1Config c1Oracle [openaiCandidate "gpt-5"]
    (openaiCandidate "gpt-4o") [geminiCandidate] "TEXT"
    (by rfl) (by decide) (by rfl)

/-! ## C6: rate-limit fast-fail is local to the model -/

/-- C6: when the chat call for a model fails with a rate-limit (429) error,
the alternate response-shape retry (the responses endpoint) for that model is
skipped and the chat error is re-raised as is, yet the orchestrator records
the formatted error summary in any terminal failure message and still
advances to the remaining candidates, whose processing is exactly that of the
shortened candidate list. -/
theorem c6_rate_limit_skips_shape_retry (cfg : Config) (oc : Oracle)
    (m : String) (ms : List String) (e : String)
    (hup : cfg.useProvider = .openai)
    (hms : cfg.openaiModels = m :: ms)
    (hchat : oc.chat m = .error e)
    (hrl : isRateLimit e = true) :
    try_provider_openai oc m = (.error e, false) ∧
    (generate_with_llm cfg oc).2 =
      openaiCandidate m ::
        (generate_with_llm ⟨.openai, ms, cfg.fallbackProvider⟩ oc).2 ∧
    (∀ msg, (generate_with_llm cfg oc).1 = .error msg →
      strContains msg (openaiErrorSummary m e) = true) := by
  have htry : try_provider_openai oc m = (.error e, false) := by
    simp [try_provider_openai, hchat, hrl]
  refine ⟨htry, ?_, ?_⟩
  · cases h2 : openaiLoop oc ms with
    | mk r2 tr2 =>
      cases r2 with
      | ok t2 => simp [generate_with_llm, openaiLoop, hup, hms, htry, h2]
      | error errs2 =>
        by_cases hfb : cfg.fallbackProvider = some Provider.gemini
        · cases hg : oc.gemini with
          | ok t3 =>
            simp [generate_with_llm, openaiLoop, hup, hms, htry, h2, hfb, hg]
          | error g3 =>
            simp [generate_with_llm, openaiLoop, hup, hms, htry, h2, hfb, hg]
        · simp [generate_with_llm, openaiLoop, hup, hms, htry, h2, hfb]
  · intro msg hmsg
    cases h2 : openaiLoop oc ms with
    | mk r2 tr2 =>
      cases r2 with
      | ok t2 => simp [generate_with_llm, openaiLoop, hup, hms, htry, h2] at hmsg
      | error errs2 =>
        by_cases hfb : cfg.fallbackProvider = some Provider.gemini
        · cases hg : oc.gemini with
          | ok t3 =>
            simp [generate_with_llm, openaiLoop, hup, hms, htry, h2, hfb, hg] at hmsg
          | error g3 =>
            simp [generate_with_llm, openaiLoop, hup, hms, htry, h2, hfb, hg] at hmsg
            rw [← hmsg]
            exact strContains_pre_join _ _ _ _ (by simp)
        · simp [generate_with_llm, openaiLoop, hup, hms, htry, h2, hfb] at hmsg
          rw [← hmsg]
          exact strContains_pre_join _ _ _ _ (by simp)

def c6Oracle : Oracle :=
  ⟨fun _ => .error "HTTP 429 too many requests",
   fun _ => .ok "SHOULD NOT BE USED", .error "gemini down"⟩

def c6Config : Config := ⟨.openai, ["gpt-4o", "gpt-4o-mini"], some .gemini⟩

/-- Closed instance of C6: a rate-limited chat call skips the responses
endpoint, the next candidate is still attempted, and the terminal failure
message carries the formatted summary of the rate-limited model. -/
theorem c6_rate_limit_witness :
    try_provider_openai c6Oracle "gpt-4o" =
      (.error "HTTP 429 too many requests", false) ∧
    strContains
      "All providers failed. Tried: OpenAI (gpt-4o): HTTP 429 too many requests | OpenAI (gpt-4o-mini): HTTP 429 too many requests | Gemini: gemini down"
      (openaiErrorSummary "gpt-4o" "HTTP 429 too many requests") = true :=
  ⟨(c6_rate_limit_skips_shape_retry c6Config c6Oracle "gpt-4o" ["gpt-4o-mini"]
      "HTTP 429 too many requests" rfl rfl rfl (by decide)).1,
   (c6_rate_limit_skips_shape_retry c6Config c6Oracle "gpt-4o" ["gpt-4o-mini"]
      "HTTP 429 too many requests" rfl rfl rfl (by decide)).2.2
     "All providers failed. Tried: OpenAI (gpt-4o): HTTP 429 too many requests | OpenAI (gpt-4o-mini): HTTP 429 too many requests | Gemini: gemini down"
     (by rfl)⟩

/-! ## C4: exhaustion reporting -/

def c4Oracle : Oracle :=
  ⟨fun _ => .error "openai boom", fun _ => .error "responses boom",
   .error "gemini boom"⟩

def c4Config : Config := ⟨.gemini, parse_openai_model_list "gpt-4o", some .openai⟩

/-- C4: evidence that the claim fails on the code when the primary provider
is Gemini: with an OpenAI fallback model configured and every candidate
failing, the OpenAI candidate is attempted (it appears in the trace) but the
terminal failure message raised at main.py line 368 carries only the primary
Gemini error — it contains no error summary for the attempted OpenAI
candidate (the aggregate message built at main.py lines 369-382 is
unreachable dead code behind the `raise`). -/
theorem c4_gemini_primary_drops_fallback_errors :
    generate_with_llm c4Config c4Oracle =
      (.error "GEMINI failed: gemini boom",
       [geminiCandidate, openaiCandidate "gpt-4o"]) ∧
    strContains "GEMINI failed: gemini boom" "openai boom" = false ∧
    strContains "GEMINI failed: gemini boom"
      (openaiErrorSummary "gpt-4o" "openai boom") = false := by
  refine ⟨by rfl, by decide, by decide⟩

end JourneyCreation
